import Mathlib

/-!
Verification of the weatherdash application (`week10-2.py`), a Streamlit
dashboard that geocodes a place query, fetches a forecast from Open-Meteo,
and renders current / hourly / daily weather views.

The Python source is shallowly embedded below: pure request-building and
response-reshaping code becomes Lean functions over association lists
(modelling Python dicts / JSON objects and pandas DataFrames), the
module-level Streamlit script becomes an explicit pipeline function, and
the `st.cache_data` memoization layer becomes an explicit TTL cache with
state passing.  JSON scalar values (coordinates, temperatures, timestamps)
are carried as opaque strings, since the program never computes on them.
-/

namespace WeatherDash

/-! ## Forecast client: request parameter construction

Embeds the body of `fetch_forecast` (src/week10-2.py lines 25-36): a dict
whose `hourly` / `daily` entries are the comma-joined variable names when
the corresponding list is non-empty and Python `None` otherwise, followed
by the `{k: v for k, v in params.items() if v is not None}` comprehension
that drops the `None` entries. -/

/-- The parameter dict of `fetch_forecast` before `None`-removal, in the
source's insertion order.  `none` stands for Python `None`. -/
def fetchForecastRawParams (lat lon timezone_str : String)
    (hourly_vars daily_vars : List String) (days : Nat) :
    List (String × Option String) :=
  [("latitude", some lat),
   ("longitude", some lon),
   ("hourly", if hourly_vars.isEmpty then none
              else some (String.intercalate "," hourly_vars)),
   ("daily", if daily_vars.isEmpty then none
             else some (String.intercalate "," daily_vars)),
   ("current_weather", some "true"),
   ("forecast_days", some (toString days)),
   ("timezone", some timezone_str)]

/-- The outbound parameter map of `fetch_forecast` after the comprehension
`params = {k: v for k, v in params.items() if v is not None}`. -/
def fetchForecastParams (lat lon timezone_str : String)
    (hourly_vars daily_vars : List String) (days : Nat) :
    List (String × String) :=
  (fetchForecastRawParams lat lon timezone_str hourly_vars daily_vars
      days).filterMap (fun kv => kv.2.map (fun v => (kv.1, v)))

/-! ## Forecast client: TTL memoization

Modelled from the spec: the `@st.cache_data(ttl=60*10)` decorator on
`fetch_forecast` is Streamlit library code not present in this repository;
the spec describes it as "memoized keyed by the full parameter tuple for a
fixed duration (ten minutes)".  We model it as an explicit cache mapping
the argument tuple to the cached bytes together with the time the entry
was stored; an entry is served while strictly younger than the TTL,
otherwise the network is hit and the fresh value stored. -/

/-- The full argument tuple of `fetch_forecast`, the memoization key. -/
structure FetchArgs where
  lat : String
  lon : String
  timezone_str : String
  hourly_vars : List String
  daily_vars : List String
  days : Nat
deriving DecidableEq, Repr

/-- Ten minutes, in seconds: the `ttl=60*10` of `fetch_forecast`. -/
def fetchTTL : Nat := 60 * 10

/-- A cache entry: key, the time it was stored, and the cached bytes. -/
structure CacheEntry where
  key : FetchArgs
  storedAt : Nat
  value : String
deriving DecidableEq, Repr

/-- Modelled from the spec: one call through the memoization layer.
`net t a` is the byte string the network would return for arguments `a`
at time `t`.  Returns the result bytes, the updated cache, and the number
of network calls performed (0 or 1). -/
def cachedFetch (net : Nat → FetchArgs → String) (now : Nat)
    (cache : List CacheEntry) (args : FetchArgs) :
    String × List CacheEntry × Nat :=
  match cache.find? (fun e => e.key == args && now < e.storedAt + fetchTTL) with
  | some e => (e.value, cache, 0)
  | none =>
      let v := net now args
      (v, ⟨args, now, v⟩ :: cache, 1)

/-! ## Geocode client

Embeds `geocode` (src/week10-2.py lines 17-22).  The response body is the
JSON object the service answered with, modelled as an association list;
the only field the program reads is `results`, an array of geocoding
results. -/

/-- One element of the geocoding service's `results` array; only the
fields the program reads.  `admin1` and `timezone` use `.get` in the
source and may be absent (`none`); scalar values are opaque strings. -/
structure GeoResult where
  name : String
  country : String
  admin1 : Option String
  latitude : String
  longitude : String
  timezone : Option String
deriving DecidableEq, Repr

/-- The outbound parameter map of `geocode`:
`{"name": query, "count": limit}`. -/
def geocodeParams (query : String) (limit : Nat) : List (String × String) :=
  [("name", query), ("count", toString limit)]

/-- `geocode`'s handling of the response body:
`r.json().get("results", [])`.  The body is an association list in which
the `results` key, when present, holds the candidate array. -/
def geocodeResults (body : List (String × List GeoResult)) : List GeoResult :=
  (body.lookup "results").getD []

/-- `geocode` as a function of its arguments and of the response body the
service returns for the request: it sends `geocodeParams query limit` and
returns the parsed `results` array unchanged (no truncation). -/
def geocode (query : String) (limit : Nat)
    (respBody : List (String × List GeoResult)) : List GeoResult :=
  geocodeResults respBody

/-! ## Forecast renderer

Embeds the rendering section (src/week10-2.py lines 82-115).  A forecast
response's `hourly` / `daily` blocks are JSON objects of parallel arrays:
one `time` array plus one array per variable.  We model such a block as a
`TimeSeries`; an absent or empty block (`data.get("hourly", {})` falsy) is
`Option.none` at the use sites. -/

/-- A forecast `hourly` / `daily` block: the `time` array plus one
`(variable name, values)` column per variable, in the response's key
order.  Scalar values are opaque strings. -/
structure TimeSeries where
  time : List String
  cols : List (String × List String)
deriving DecidableEq, Repr

/-- The column names of the pandas DataFrame built from a block
(`df.columns`): `time` plus the variable columns, in response order. -/
def tsColumns (ts : TimeSeries) : List String :=
  "time" :: ts.cols.map Prod.fst

/-- The `current_weather` object; every field is read with `.get` in the
source, so each may be absent. -/
structure CurrentWeather where
  temperature : Option String
  windspeed : Option String
  winddirection : Option String
  time : Option String
deriving DecidableEq, Repr

/-- Python's f-string rendering of a `.get` result: `None` prints as the
string `"None"`. -/
def pyShow (v : Option String) : String :=
  v.getD "None"

/-- The current-conditions summary (lines 82-89): if `current_weather` is
present (truthy) display temperature, wind speed/direction and the
observation time; otherwise write the explicit no-data message. -/
def renderCurrent (current : Option CurrentWeather) : List String :=
  match current with
  | some c =>
      ["현재 기온 (°C): " ++ pyShow c.temperature ++ " °C",
       "풍속: " ++ pyShow c.windspeed ++ " m/s, 바람방향: "
         ++ pyShow c.winddirection ++ "°",
       "관측 시간: " ++ pyShow c.time]
  | none => ["현재 날씨 데이터 없음"]

/-- The hourly chart loop (lines 92-107): when the `hourly` block is
truthy and the hourly selection is non-empty, one chart is produced for
each selected variable in selection order, skipping variables that are
not a column of the DataFrame (`if var in df_hour.columns`).  Returns the
list of variables charted, one entry per rendered chart. -/
def renderHourlyCharts (hourly : Option TimeSeries)
    (hourly_options : List String) : List String :=
  match hourly with
  | none => []
  | some ts =>
      if hourly_options.isEmpty then []
      else hourly_options.filter (fun v => (tsColumns ts).contains v)

/-- The daily summary table (lines 110-115): header row and data rows of
`df_daily[['time'] + [c for c in df_daily.columns if c in daily_options]]`. -/
structure DailyTable where
  header : List String
  rows : List (List String)
deriving DecidableEq, Repr

/-- Cell lookup in the DataFrame built from a block: value of column `c`
at row index `i`.  The `time` column is the block's `time` array; the
source's DataFrame requires all parallel arrays to share one length, so
the out-of-range defaults are never consulted on well-formed blocks. -/
def dfCell (ts : TimeSeries) (c : String) (i : Nat) : String :=
  if c = "time" then (ts.time.get? i).getD ""
  else (((ts.cols.lookup c).getD []).get? i).getD ""

/-- The daily summary rendering (lines 110-115): when the `daily` block
is truthy and the daily selection is non-empty, the rendered table is
`df_daily[['time'] + [c for c in df_daily.columns if c in daily_options]]`:
the `time` column followed by the DataFrame's columns that are in the
selection, in response order, one row per index entry of the parallel
arrays, in response order (not re-sorted). -/
def renderDailyTable (daily : Option TimeSeries)
    (daily_options : List String) : Option DailyTable :=
  match daily with
  | none => none
  | some ts =>
      if daily_options.isEmpty then none
      else
        let selected :=
          "time" :: (tsColumns ts).filter (fun c => daily_options.contains c)
        some { header := selected,
               rows := (List.range ts.time.length).map (fun i =>
                 selected.map (fun c => dfCell ts c i)) }

/-! ## Selection resolver and pipeline

Embeds the module-level script section (src/week10-2.py lines 57-79): the
search trigger guard, the no-results warning, the candidate rows, the
radio selection resolved back to an index with `list.index(sel)`, the
timezone default, and the forecast fetch. -/

/-- One row of the candidate DataFrame (line 67). -/
structure CandRow where
  name : String
  lat : String
  lon : String
  timezone : Option String
deriving DecidableEq, Repr

/-- The display name built on line 66:
`f"{r.get('name')}, {r.get('country')} ({r.get('admin1') or ''})"`. -/
def displayName (r : GeoResult) : String :=
  r.name ++ ", " ++ r.country ++ " (" ++ r.admin1.getD "" ++ ")"

/-- The candidate row built from one geocoding result (line 67). -/
def candRow (r : GeoResult) : CandRow :=
  { name := displayName r, lat := r.latitude, lon := r.longitude,
    timezone := r.timezone }

/-- Lines 71-72: `idx = df["name"].tolist().index(sel)` followed by
`sel_row = df.iloc[idx]` — the radio choice is resolved to the FIRST
index whose display name equals the chosen string, and the row at that
index is used.  `none` models the `ValueError` Python raises when the
string is not among the names (unreachable through the radio widget). -/
def resolveSelection (rows : List CandRow) (sel : String) :
    Option CandRow :=
  match (rows.map (fun row => row.name)).findIdx? (fun n => n == sel) with
  | some idx => rows.get? idx
  | none => none

/-- Line 74: `tz = sel_row["timezone"] or "UTC"` — Python truthiness,
so both an absent timezone and an empty string fall back to `"UTC"`. -/
def resolvedTimezone (row : CandRow) : String :=
  match row.timezone with
  | none => "UTC"
  | some s => if s = "" then "UTC" else s

/-- Python's `str.strip()`: remove leading and trailing whitespace. -/
def pyStrip (s : String) : String :=
  ⟨((s.data.dropWhile Char.isWhitespace).reverse.dropWhile
      Char.isWhitespace).reverse⟩

/-- The pipeline states of one script run. -/
inductive PipelineState where
  | AwaitingQuery
  | NoResults
  | ShowingResults
deriving DecidableEq, Repr

/-- Observable outcome of one script run: the state reached, how many
times each client was invoked, and any warning shown. -/
structure PipelineOutcome where
  state : PipelineState
  geocodeCalls : Nat
  fetchCalls : Nat
  warnings : List String
deriving DecidableEq, Repr

/-- One top-to-bottom run of the module-level script (lines 57-79).
`search_btn` is the trigger button, `q` the query text, `geocodeResp`
the candidate list the geocoding service would answer with, and `sel`
the display name chosen in the radio widget (the widget only offers the
candidate names, so `sel` is one of them on any real run).  The guard is
`if search_btn and q.strip():` — Python string truthiness, so a query
that is empty after stripping whitespace never reaches `geocode`. -/
def runPipeline (search_btn : Bool) (q : String)
    (geocodeResp : List GeoResult) (sel : String) : PipelineOutcome :=
  if search_btn && !(pyStrip q == "") then
    let results := geocodeResp
    if results.isEmpty then
      { state := .NoResults, geocodeCalls := 1, fetchCalls := 0,
        warnings := ["검색 결과 없음 — 다른 키워드로 시도해"] }
    else
      let rows := results.map candRow
      match resolveSelection rows sel with
      | some _ =>
          { state := .ShowingResults, geocodeCalls := 1, fetchCalls := 1,
            warnings := [] }
      | none =>
          -- `list.index` raises ValueError; unreachable via the widget.
          { state := .ShowingResults, geocodeCalls := 1, fetchCalls := 0,
            warnings := [] }
  else
    { state := .AwaitingQuery, geocodeCalls := 0, fetchCalls := 0,
      warnings := [] }

/-! ## Theorems -/

/-- C1: in every `fetch_forecast` call's outbound parameter map, the
`hourly` key is absent exactly when the hourly variable list is empty and
otherwise carries the comma-joined variable names; likewise for `daily`. -/
theorem fetch_forecast_param_omission (lat lon tz : String)
    (hourly_vars daily_vars : List String) (days : Nat) :
    ((fetchForecastParams lat lon tz hourly_vars daily_vars days).lookup
        "hourly"
      = if hourly_vars.isEmpty then none
        else some (String.intercalate "," hourly_vars)) ∧
    ((fetchForecastParams lat lon tz hourly_vars daily_vars days).lookup
        "daily"
      = if daily_vars.isEmpty then none
        else some (String.intercalate "," daily_vars)) := by
  cases hourly_vars <;> cases daily_vars <;>
    simp [fetchForecastParams, fetchForecastRawParams, List.lookup]

/-- C2: two `fetch_forecast` calls with identical arguments, the second
within the ten-minute window of the first, yield byte-identical results
and perform at most one network call between them. -/
theorem fetch_idempotent_within_ttl (net : Nat → FetchArgs → String)
    (c0 : List CacheEntry) (args : FetchArgs) (t1 t2 : Nat)
    (horder : t1 ≤ t2) (hwin : t2 < t1 + fetchTTL)
    (hmiss : c0.find?
        (fun e => e.key == args && t1 < e.storedAt + fetchTTL) = none) :
    (cachedFetch net t2 (cachedFetch net t1 c0 args).2.1 args).1
      = (cachedFetch net t1 c0 args).1 ∧
    (cachedFetch net t1 c0 args).2.2
      + (cachedFetch net t2 (cachedFetch net t1 c0 args).2.1 args).2.2
      ≤ 1 := by
  have h1 : cachedFetch net t1 c0 args
      = (net t1 args, ⟨args, t1, net t1 args⟩ :: c0, 1) := by
    simp [cachedFetch, hmiss]
  have hfind2 :
      ((⟨args, t1, net t1 args⟩ : CacheEntry) :: c0).find?
        (fun e => e.key == args && t2 < e.storedAt + fetchTTL)
      = some ⟨args, t1, net t1 args⟩ := by
    simp [List.find?, hwin]
  rw [h1]
  simp [cachedFetch, hfind2]

/-- C3: when geocoding returns zero candidates on a triggered search, the
run ends in the `NoResults` state with a warning shown and the forecast
client is never invoked. -/
theorem zero_candidates_noresults (q sel : String)
    (hq : pyStrip q ≠ "") :
    (runPipeline true q [] sel).state = PipelineState.NoResults ∧
    (runPipeline true q [] sel).fetchCalls = 0 ∧
    (runPipeline true q [] sel).warnings ≠ [] := by
  simp [runPipeline, hq]

/-- C7: the current-conditions summary shows temperature, wind
speed/direction and observation time exactly when the `current_weather`
block is present, shows the explicit no-data message otherwise, and is
never empty. -/
theorem current_summary_spec (current : Option CurrentWeather) :
    (∀ c, current = some c →
      renderCurrent current =
        ["현재 기온 (°C): " ++ pyShow c.temperature ++ " °C",
         "풍속: " ++ pyShow c.windspeed ++ " m/s, 바람방향: "
           ++ pyShow c.winddirection ++ "°",
         "관측 시간: " ++ pyShow c.time]) ∧
    (current = none → renderCurrent current = ["현재 날씨 데이터 없음"]) ∧
    renderCurrent current ≠ [] := by
  cases current <;> simp [renderCurrent]

/-- C9: a query that is empty after trimming never triggers the geocode
search (and a fortiori no forecast fetch): the run stays in
`AwaitingQuery` with zero network calls. -/
theorem empty_query_no_search (search_btn : Bool) (q sel : String)
    (resp : List GeoResult) (hq : pyStrip q = "") :
    (runPipeline search_btn q resp sel).geocodeCalls = 0 ∧
    (runPipeline search_btn q resp sel).fetchCalls = 0 ∧
    (runPipeline search_btn q resp sel).state
      = PipelineState.AwaitingQuery := by
  simp [runPipeline, hq]

/-- C10: a 2xx response body lacking the `results` key makes `geocode`
return the empty list — indistinguishable from a body whose `results`
array is empty. -/
theorem missing_results_key_empty (query : String) (limit : Nat)
    (body : List (String × List GeoResult))
    (hbody : body.lookup "results" = none) :
    geocode query limit body = [] ∧
    geocode query limit body = geocode query limit [("results", [])] := by
  simp [geocode, geocodeResults, hbody]

/-- A concrete argument tuple for exercising the memoization model. -/
def seoulArgs : FetchArgs :=
  { lat := "37.56", lon := "126.99", timezone_str := "Asia/Seoul",
    hourly_vars := ["temperature_2m", "precipitation"],
    daily_vars := ["temperature_2m_max"], days := 7 }

/-- Witness for C2: from an empty cache, a fetch at t=0 and a repeat at
t=300 (inside the ten-minute window) agree and spend at most one network
call. -/
theorem fetch_idempotent_within_ttl_witness :
    (cachedFetch (fun t _ => toString t)
        300 (cachedFetch (fun t _ => toString t) 0 [] seoulArgs).2.1
        seoulArgs).1
      = (cachedFetch (fun t _ => toString t) 0 [] seoulArgs).1 ∧
    (cachedFetch (fun t _ => toString t) 0 [] seoulArgs).2.2
      + (cachedFetch (fun t _ => toString t)
          300 (cachedFetch (fun t _ => toString t) 0 [] seoulArgs).2.1
          seoulArgs).2.2 ≤ 1 :=
  fetch_idempotent_within_ttl (fun t _ => toString t) [] seoulArgs 0 300
    (by decide) (by decide) rfl

/-- Witness for C3: query `"Seoul"`, empty candidate list. -/
theorem zero_candidates_noresults_witness :
    (runPipeline true "Seoul" [] "x").state = PipelineState.NoResults ∧
    (runPipeline true "Seoul" [] "x").fetchCalls = 0 ∧
    (runPipeline true "Seoul" [] "x").warnings ≠ [] :=
  zero_candidates_noresults "Seoul" "x" (by decide)

/-- Witness for C7: a populated current-weather block renders the three
summary lines; an absent block renders the no-data message. -/
theorem current_summary_spec_witness :
    renderCurrent (some ⟨some "3.4", some "1.2", some "90", some "t0"⟩)
      = ["현재 기온 (°C): 3.4 °C", "풍속: 1.2 m/s, 바람방향: 90°",
         "관측 시간: t0"] ∧
    renderCurrent none = ["현재 날씨 데이터 없음"] := by
  refine ⟨?_, (current_summary_spec none).2.1 rfl⟩
  rw [(current_summary_spec
    (some ⟨some "3.4", some "1.2", some "90", some "t0"⟩)).1 _ rfl]
  rfl

/-- Witness for C9: a whitespace-only query with the button pressed makes
no network call at all. -/
theorem empty_query_no_search_witness :
    (runPipeline true "   " [] "x").geocodeCalls = 0 ∧
    (runPipeline true "   " [] "x").fetchCalls = 0 ∧
    (runPipeline true "   " [] "x").state = PipelineState.AwaitingQuery :=
  empty_query_no_search true "   " "x" [] rfl

/-- Witness for C10: a body holding only other keys parses to zero
candidates, exactly like a body with an empty `results` array. -/
theorem missing_results_key_empty_witness :
    geocode "Seoul" 5 [("other", [])] = [] ∧
    geocode "Seoul" 5 [("other", [])]
      = geocode "Seoul" 5 [("results", [])] :=
  missing_results_key_empty "Seoul" 5 [("other", [])] rfl

/-- Two geocoding candidates named Seoul, for exercising `geocode`. -/
def seoulKR : GeoResult :=
  { name := "Seoul", country := "South Korea", admin1 := some "Seoul",
    latitude := "37.56", longitude := "126.99",
    timezone := some "Asia/Seoul" }

/-- A second candidate named Seoul, in another country. -/
def seoulUS : GeoResult :=
  { name := "Seoul", country := "United States",
    admin1 := some "Minnesota", latitude := "45.0", longitude := "-93.0",
    timezone := none }

/-- C4 counterexample: with a valid query and `limit = 1`, a service
response whose `results` array holds two candidates makes `geocode`
return both — the code never truncates, so the length bound does not
hold unconditionally. -/
theorem geocode_limit_counterexample :
    pyStrip "Seoul" ≠ "" ∧ 1 ≤ (1 : Nat) ∧ (1 : Nat) ≤ 10 ∧
    1 < (geocode "Seoul" 1 [("results", [seoulKR, seoulUS])]).length := by
  decide

/-- C4 amended: `geocode` forwards `count = limit` in the request and
returns the service's `results` array unchanged, so its length is
bounded by `limit` whenever the service returns at most `limit`
candidates. -/
theorem geocode_limit_amended (query : String) (limit : Nat)
    (body : List (String × List GeoResult))
    (hq : pyStrip query ≠ "") (h1 : 1 ≤ limit) (h10 : limit ≤ 10)
    (hsvc : ∀ rs, body.lookup "results" = some rs → rs.length ≤ limit) :
    (geocode query limit body).length ≤ limit ∧
    (geocodeParams query limit).lookup "count"
      = some (toString limit) := by
  refine ⟨?_, by simp [geocodeParams, List.lookup]⟩
  cases hb : body.lookup "results" with
  | none => simp [geocode, geocodeResults, hb]
  | some rs => simpa [geocode, geocodeResults, hb] using hsvc rs hb

/-- Witness for the amended C4: a single-candidate response under
`limit = 5` respects the bound, and the request carries `count = 5`. -/
theorem geocode_limit_amended_witness :
    (geocode "Seoul" 5 [("results", [seoulKR])]).length ≤ 5 ∧
    (geocodeParams "Seoul" 5).lookup "count" = some (toString 5) := by
  refine geocode_limit_amended "Seoul" 5 [("results", [seoulKR])]
    (by decide) (by decide) (by decide) ?_
  intro rs h
  rw [show ([("results", [seoulKR])].lookup "results")
      = some [seoulKR] from rfl] at h
  cases h
  decide

/-- C5: with a present hourly block, the chart loop renders exactly one
chart per selected variable that is a column of the block (counted per
variable, under the multiselect's distinct options); selections absent
from the response contribute nothing, so an all-absent selection renders
zero charts; an absent hourly block renders zero charts. -/
theorem hourly_charts_spec (ts : TimeSeries) (opts : List String)
    (hnd : opts.Nodup) :
    (∀ v, (renderHourlyCharts (some ts) opts).count v
        = if v ∈ opts ∧ v ∈ tsColumns ts then 1 else 0) ∧
    ((∀ v ∈ opts, v ∉ tsColumns ts) →
      renderHourlyCharts (some ts) opts = []) ∧
    renderHourlyCharts none opts = [] := by
  refine ⟨?_, ?_, rfl⟩
  · intro v
    unfold renderHourlyCharts
    cases hop : opts.isEmpty with
    | true =>
        have : opts = [] := by simpa using hop
        subst this
        simp
    | false =>
        simp only [hop, Bool.false_eq_true, if_false]
        by_cases hmem : v ∈ opts
        · by_cases hcol : v ∈ tsColumns ts
          · rw [if_pos ⟨hmem, hcol⟩]
            rw [List.count_filter (by simpa using hcol)]
            exact List.count_eq_one_of_mem hnd hmem
          · rw [if_neg (fun h => hcol h.2)]
            refine List.count_eq_zero.mpr (fun hin => ?_)
            have := List.of_mem_filter hin
            exact hcol (by simpa using this)
        · rw [if_neg (fun h => hmem h.1)]
          exact List.count_eq_zero.mpr
            (fun hin => hmem (List.mem_of_mem_filter hin))
  · intro habs
    unfold renderHourlyCharts
    cases hop : opts.isEmpty with
    | true => simp
    | false =>
        simp only [hop, Bool.false_eq_true, if_false]
        refine List.filter_eq_nil_iff.mpr (fun a ha => ?_)
        simpa using habs a ha

/-- A concrete hourly block exposing only `temperature_2m`. -/
def hourlyTs : TimeSeries :=
  { time := ["t0", "t1"], cols := [("temperature_2m", ["3.1", "2.9"])] }

/-- Witness for C5: requesting only `weathercode` against a block that
lacks it renders zero charts (and the absent block renders none). -/
theorem hourly_charts_spec_witness :
    (renderHourlyCharts (some hourlyTs) ["weathercode"]).count
        "weathercode" = 0 ∧
    renderHourlyCharts (some hourlyTs) ["weathercode"] = [] ∧
    renderHourlyCharts none ["weathercode"] = [] := by
  have h := hourly_charts_spec hourlyTs ["weathercode"] (by decide)
  exact ⟨by rw [h.1 "weathercode", if_neg (by decide)],
         h.2.1 (by decide), h.2.2⟩

/-- C6: with a present daily block and a non-empty selection of daily
variables (the selectable options never include `time`), the rendered
table's header is the `time` column followed by exactly the response
columns that were selected, in response order; there is one row per
entry of the `time` array; and row `i` starts with the `i`-th time value
with its remaining cells drawn column-wise at index `i` — service order,
not re-sorted. -/
theorem daily_table_spec (ts : TimeSeries) (opts : List String)
    (hne : opts ≠ []) (htime : "time" ∉ opts) :
    ∃ tbl, renderDailyTable (some ts) opts = some tbl ∧
      tbl.header
        = "time" :: (ts.cols.map Prod.fst).filter
            (fun c => opts.contains c) ∧
      tbl.rows.length = ts.time.length ∧
      ∀ i, i < ts.time.length →
        tbl.rows.getD i [] = tbl.header.map (fun c => dfCell ts c i) ∧
        (tbl.rows.getD i []).head? = some (ts.time.getD i "") := by
  have hop : opts.isEmpty = false := by simp [hne]
  have hct : opts.contains "time" = false := by simp [htime]
  have hsel : ("time" :: (tsColumns ts).filter (fun c => opts.contains c))
      = "time" :: (ts.cols.map Prod.fst).filter (fun c => opts.contains c)
      := by
    simp only [tsColumns, List.filter_cons, hct, Bool.false_eq_true,
      if_false]
  have hrd : renderDailyTable (some ts) opts
      = some { header :=
                 "time" :: (tsColumns ts).filter (fun c => opts.contains c),
               rows := (List.range ts.time.length).map (fun i =>
                 ("time" :: (tsColumns ts).filter
                   (fun c => opts.contains c)).map
                     (fun c => dfCell ts c i)) } := by
    unfold renderDailyTable
    simp only [hop, Bool.false_eq_true, if_false]
  refine ⟨_, hrd, ?_, ?_, ?_⟩
  · exact hsel
  · simp
  · intro i hi
    have hrow : ((List.range ts.time.length).map (fun i =>
        ("time" :: (tsColumns ts).filter (fun c => opts.contains c)).map
          (fun c => dfCell ts c i))).getD i []
        = ("time" :: (tsColumns ts).filter (fun c => opts.contains c)).map
            (fun c => dfCell ts c i) := by
      rw [List.getD_eq_get?, List.get?_map,
        List.get?_range (by simpa using hi)]
      rfl
    constructor
    · rw [hrow, hsel]
    · rw [hrow]
      simp [dfCell, List.getD_eq_get?]

/-- A concrete daily block with two days and two variables. -/
def dailyTs : TimeSeries :=
  { time := ["d0", "d1"],
    cols := [("temperature_2m_max", ["20", "21"]),
             ("weathercode", ["1", "2"])] }

/-- Witness for C6: selecting `temperature_2m_max` from a two-day block
yields the `time` column plus that variable and two rows. -/
theorem daily_table_spec_witness :
    ∃ tbl, renderDailyTable (some dailyTs) ["temperature_2m_max"]
        = some tbl ∧
      tbl.header = ["time", "temperature_2m_max"] ∧
      tbl.rows.length = 2 ∧ tbl.rows.getD 0 [] = ["d0", "20"] := by
  obtain ⟨tbl, h1, h2, h3, h4⟩ :=
    daily_table_spec dailyTs ["temperature_2m_max"] (by decide) (by decide)
  refine ⟨tbl, h1, ?_, ?_, ?_⟩
  · rw [h2]; rfl
  · rw [h3]; rfl
  · rw [(h4 0 (by decide)).1, h2]; rfl

/-- First-match characterization of `List.findIdx?`: if position `i`
satisfies the predicate and no earlier position does, the search from
start offset `s` answers `s + i`. -/
theorem findIdx?_first_aux {α : Type} (p : α → Bool) (l : List α) :
    ∀ (i : Nat) (hi : i < l.length) (s : Nat),
      p (l.get ⟨i, hi⟩) = true →
      (∀ j (hj : j < i), p (l.get ⟨j, Nat.lt_trans hj hi⟩) = false) →
      l.findIdx? p s = some (s + i) := by
  induction l with
  | nil => intro i hi _ _ _; simp at hi
  | cons a t ih =>
    intro i hi s hp hfirst
    cases i with
    | zero => simp_all [List.findIdx?_cons]
    | succ n =>
      have ha : p a = false := hfirst 0 (Nat.succ_pos n)
      have ht := ih n (by simpa using hi) (s + 1) (by simpa using hp)
        (fun j hj => by simpa using hfirst (j + 1) (Nat.succ_lt_succ hj))
      rw [List.findIdx?_cons, ha]
      simpa [Nat.add_assoc, Nat.add_comm 1 n] using ht

/-- C8: when the radio choice string matches the candidate at index `i`
and no earlier candidate, the selection resolves to exactly that
candidate (first matching index), and a candidate without a timezone
resolves to the `"UTC"` default. -/
theorem selection_resolves_first_match (rows : List CandRow)
    (sel : String) (i : Nat) (hi : i < rows.length)
    (hname : rows[i].name = sel)
    (hfirst : ∀ j (hj : j < i), rows[j].name ≠ sel) :
    resolveSelection rows sel = some rows[i] ∧
    (rows[i].timezone = none → resolvedTimezone rows[i] = "UTC") := by
  constructor
  · unfold resolveSelection
    have hlen : i < (rows.map (fun r => r.name)).length := by simpa using hi
    have hfind : (rows.map (fun r => r.name)).findIdx?
        (fun n => n == sel) = some i := by
      have := findIdx?_first_aux (fun n => n == sel)
        (rows.map (fun r => r.name)) i hlen 0
        (by simpa [List.get_map] using hname)
        (fun j hj => by simpa [List.get_map] using hfirst j hj)
      simpa using this
    rw [hfind]
    simp [List.get?_eq_get hi]
  · intro h
    simp [resolvedTimezone, h]

/-- A first candidate row named like its duplicate, without a timezone. -/
def dupRowA : CandRow :=
  { name := "Seoul, South Korea (Seoul)", lat := "37.5", lon := "127.0",
    timezone := none }

/-- A second candidate row sharing `dupRowA`'s display name. -/
def dupRowB : CandRow :=
  { name := "Seoul, South Korea (Seoul)", lat := "37.6", lon := "127.1",
    timezone := some "Asia/Seoul" }

/-- Witness for C8: with two identically named candidates, the shared
name resolves to the first row, whose missing timezone defaults to
`"UTC"`. -/
theorem selection_resolves_first_match_witness :
    resolveSelection [dupRowA, dupRowB] "Seoul, South Korea (Seoul)"
      = some dupRowA ∧
    resolvedTimezone dupRowA = "UTC" := by
  have h := selection_resolves_first_match [dupRowA, dupRowB]
    "Seoul, South Korea (Seoul)" 0 (by decide) (by decide)
    (fun j hj => absurd hj (Nat.not_lt_zero j))
  exact ⟨h.1, h.2 rfl⟩

end WeatherDash
